import Mathlib

/-!
Shallow embedding of `src/main.cpp` of mbed-os-example-cellular.

The program drives an external cellular interface (`iface`) through a
bounded-retry connect loop (`do_connect`), performs one echo transaction over
a TCP or UDP socket (`test_send_recv`), and reports an exit code (`main`).
The cellular interface, the IP stack and the sockets are external
collaborators; we embed them as explicit behaviours passed to the embedded
functions:

* the interface is an `IfaceState` (the value of `is_connected()` /
  `get_ip_address()`) plus a list of `ConnectStep`s, one per invocation of
  `iface.connect()`: the step gives the `nsapi_error_t` the call returns and
  the interface state observed afterwards;
* a socket session is a `SocketBehavior` giving the result codes of
  `open`, `gethostbyname`, `connect`, `send`/`sendto` and `recv`/`recvfrom`;
  the embedded `test_send_recv` returns its result code together with the
  trace of socket/address operations it performed, in order.

Loops are embedded as recursion over the finite behaviour list; when the
behaviour list is exhausted while the loop would continue, the embedding
returns `none` (the source loop would still be running, demanding more
behaviour from the collaborator).
-/

namespace CellularExample

/-! ### Constants from `main.cpp` and the mbed `nsapi_types.h` codes it uses -/

/-- Code `NSAPI_ERROR_OK` (0): success, from mbed's `nsapi_types.h`. -/
def NSAPI_ERROR_OK : Int := 0

/-- Code `NSAPI_ERROR_AUTH_FAILURE` from mbed's `nsapi_types.h`
(a negative code; its exact value plays no role beyond being nonzero). -/
def NSAPI_ERROR_AUTH_FAILURE : Int := -3011

/-- Code `NSAPI_ERROR_NO_CONNECTION` from mbed's `nsapi_types.h`, used here
as a sample retryable connect failure. -/
def NSAPI_ERROR_NO_CONNECTION : Int := -3004

/-- Source: `#define RETRY_COUNT 3` (main.cpp line 62). -/
def RETRY_COUNT : Nat := 3

/-- Source: `const char *host_name = "echo.mbedcloudtesting.com";` (line 65). -/
def host_name : String := "echo.mbedcloudtesting.com"

/-- Source: `const int port = 7;` (line 68). -/
def port : Int := 7

/-! ### The external cellular interface, as observed by this program -/

/-- State of the external interface as far as `main.cpp` queries it:
the value `iface.is_connected()` returns and the address
`iface.get_ip_address()` returns (`none` embeds a NULL/unassigned address). -/
structure IfaceState where
  connected : Bool
  ipAddress : Option String
deriving DecidableEq, Repr

/-- Behaviour of one invocation of `iface.connect()`: the `nsapi_error_t`
it returns and the interface state observed afterwards. -/
structure ConnectStep where
  retcode : Int
  stateAfter : IfaceState
deriving DecidableEq, Repr

/-- Outcome of `do_connect`: the returned `nsapi_error_t`, the interface
state when it returns, how many times it invoked `iface.connect()`, and the
lines it passed to `print_function`, in order. -/
structure ConnectOutcome where
  retcode : Int
  finalState : IfaceState
  attempts : Nat
  prints : List String
deriving DecidableEq, Repr

/-- Line printed by `do_connect` after the connect loop exits (line 157). -/
def connectionEstablishedMsg : String := "\n\nConnection Established.\n"

/-- Line printed by `do_connect` on `NSAPI_ERROR_AUTH_FAILURE` (line 141). -/
def authFailureMsg : String := "\n\nAuthentication Failure. Exiting application\n"

/-- Line printed by `do_connect` on retry exhaustion, from the format string
`"\n\nFatal connection failure: %d\n"` (line 144). -/
def fatalMsg (r : Int) : String := "\n\nFatal connection failure: " ++ toString r ++ "\n"

/-- Line printed by `do_connect` before a retry, from the format string
`"\n\nCouldn't connect: %d, will retry\n"` (line 148). -/
def retryMsg (r : Int) : String := "\n\nCouldn't connect: " ++ toString r ++ ", will retry\n"

/-- Embeds the `while (!iface.is_connected())` loop of `do_connect`
(main.cpp lines 137-155) plus the epilogue (lines 157-161).  Arguments: the
currently observed interface state, the current value of the `uint8_t`
`retry_counter`, and the behaviours of the remaining `iface.connect()`
invocations.  `retry_counter++` on a `uint8_t` is embedded as `+ 1` modulo
256.  The `tr_info` trace line (line 159) goes to the trace subsystem, not
to `print_function`, so it is not part of `prints`. -/
def doConnectAux : IfaceState → Nat → List ConnectStep → Option ConnectOutcome
  | st, _, [] =>
    if st.connected then
      some ⟨NSAPI_ERROR_OK, st, 0, [connectionEstablishedMsg]⟩
    else none
  | st, retry_counter, s :: rest =>
    if st.connected then
      some ⟨NSAPI_ERROR_OK, st, 0, [connectionEstablishedMsg]⟩
    else if s.retcode = NSAPI_ERROR_AUTH_FAILURE then
      some ⟨s.retcode, s.stateAfter, 1, [authFailureMsg]⟩
    else if s.retcode ≠ NSAPI_ERROR_OK ∧ retry_counter > RETRY_COUNT then
      some ⟨s.retcode, s.stateAfter, 1, [fatalMsg s.retcode]⟩
    else if s.retcode ≠ NSAPI_ERROR_OK then
      (doConnectAux s.stateAfter ((retry_counter + 1) % 256) rest).map
        (fun oc => ⟨oc.retcode, oc.finalState, oc.attempts + 1, retryMsg s.retcode :: oc.prints⟩)
    else
      some ⟨NSAPI_ERROR_OK, s.stateAfter, 1, [connectionEstablishedMsg]⟩

/-- Embeds `do_connect` (main.cpp lines 132-162): the loop entered with
`retry_counter = 0` on the given interface state and connect behaviours. -/
def do_connect (st : IfaceState) (steps : List ConnectStep) : Option ConnectOutcome :=
  doConnectAux st 0 steps

/-! ### The progress-dot thread -/

/-- Source: `wait(4)` in `dot_event` — the fixed sleep, in seconds. -/
def dot_wait_seconds : Nat := 4

/-- Embeds `dot_event` (main.cpp lines 116-127).  The argument is the
sequence of values `iface.is_connected()` returns at the successive polls,
one per loop cycle; each cycle first sleeps `wait(4)` and then polls.  The
result is the list of strings passed to `print_function` (one `"."` per
cycle that observed a disconnected interface) paired with the total seconds
slept, or `none` when the observation list is exhausted with the loop still
running. -/
def dot_event : List Bool → Option (List String × Nat)
  | [] => none
  | b :: rest =>
    if b then
      some ([], dot_wait_seconds)
    else
      (dot_event rest).map (fun r => ("." :: r.1, dot_wait_seconds + r.2))

/-! ### The echo transaction -/

/-- Transport selected by `MBED_CONF_APP_SOCK_TYPE` (UDP or TCP). -/
inductive SockType where
  | udp
  | tcp
deriving DecidableEq, Repr

/-- Behaviour of the external socket/stack during one `test_send_recv` call:
result codes of `sock.open`, `iface.gethostbyname`, `sock.connect` (TCP
builds only), `sock.send`/`sock.sendto`, and `sock.recv`/`sock.recvfrom`. -/
structure SocketBehavior where
  openResult : Int
  resolveResult : Int
  connectResult : Int
  sendResult : Int
  recvResult : Int
deriving DecidableEq, Repr

/-- One observable operation performed by `test_send_recv`, in trace order.
`closeSock` is the explicit `sock.close()` call (line 235); `destroySock` is
the destruction of the stack-allocated socket object when the function
returns — C++ runs the socket's destructor on every return path, and the
mbed socket classes release (close) a still-open socket there. -/
inductive EchoEvent where
  | openSock
  | resolveHost (host : String)
  | setPort (p : Int)
  | setTimeout (ms : Nat)
  | connectSock
  | sendData (payload : String) (len : Nat)
  | recvData (buflen : Nat)
  | closeSock
  | destroySock
deriving DecidableEq, Repr

/-- Source: `const char *echo_string = "TEST";` (line 196). -/
def echo_string : String := "TEST"

/-- Value of `sizeof(echo_string)` in the send calls (lines 208/221):
`echo_string` is a `const char *`, so this is the pointer size, 4 bytes on
the 32-bit mbed targets this example builds for — the four bytes sent are
exactly `T`,`E`,`S`,`T`. -/
def sizeof_echo_string : Nat := 4

/-- Value of `sizeof(recv_buf)` for `char recv_buf[4]` (line 197). -/
def sizeof_recv_buf : Nat := 4

/-- Embeds `test_send_recv` (main.cpp lines 168-244) for the transport
selected at build time.  Returns the function's result code and the trace
of socket/address operations performed, in order.  Failure tests follow the
source exactly: `open` and `gethostbyname` fail when the code is not
`NSAPI_ERROR_OK`; TCP `connect`, `send` and UDP `sendto` fail when the code
is negative; after the receive, the raw byte count decides the result
(`n > 0` succeeds).  Every return path ends with `destroySock`: the socket
is a stack object, destroyed (and thereby closed if still open) when the
function returns. -/
def test_send_recv (ty : SockType) (b : SocketBehavior) : Int × List EchoEvent :=
  if b.openResult ≠ NSAPI_ERROR_OK then
    (-1, [EchoEvent.openSock, EchoEvent.destroySock])
  else if b.resolveResult ≠ NSAPI_ERROR_OK then
    (-1, [EchoEvent.openSock, EchoEvent.resolveHost host_name, EchoEvent.destroySock])
  else
    match ty with
    | SockType.tcp =>
      if b.connectResult < 0 then
        (-1, [EchoEvent.openSock, EchoEvent.resolveHost host_name, EchoEvent.setPort port,
              EchoEvent.setTimeout 15000, EchoEvent.connectSock, EchoEvent.destroySock])
      else if b.sendResult < 0 then
        (-1, [EchoEvent.openSock, EchoEvent.resolveHost host_name, EchoEvent.setPort port,
              EchoEvent.setTimeout 15000, EchoEvent.connectSock,
              EchoEvent.sendData echo_string sizeof_echo_string, EchoEvent.destroySock])
      else
        (if b.recvResult > 0 then 0 else -1,
         [EchoEvent.openSock, EchoEvent.resolveHost host_name, EchoEvent.setPort port,
          EchoEvent.setTimeout 15000, EchoEvent.connectSock,
          EchoEvent.sendData echo_string sizeof_echo_string,
          EchoEvent.recvData sizeof_recv_buf, EchoEvent.closeSock, EchoEvent.destroySock])
    | SockType.udp =>
      if b.sendResult < 0 then
        (-1, [EchoEvent.openSock, EchoEvent.resolveHost host_name, EchoEvent.setPort port,
              EchoEvent.setTimeout 15000,
              EchoEvent.sendData echo_string sizeof_echo_string, EchoEvent.destroySock])
      else
        (if b.recvResult > 0 then 0 else -1,
         [EchoEvent.openSock, EchoEvent.resolveHost host_name, EchoEvent.setPort port,
          EchoEvent.setTimeout 15000,
          EchoEvent.sendData echo_string sizeof_echo_string,
          EchoEvent.recvData sizeof_recv_buf, EchoEvent.closeSock, EchoEvent.destroySock])

/-- Holds when the socket does not survive the transaction open: either the
explicit `sock.close()` ran or the socket object was destroyed on return. -/
def socketClosed (tr : List EchoEvent) : Prop :=
  EchoEvent.closeSock ∈ tr ∨ EchoEvent.destroySock ∈ tr

instance (tr : List EchoEvent) : Decidable (socketClosed tr) := by
  unfold socketClosed
  infer_instance

/-! ### The entry point -/

/-- Embeds the decision structure of `main` (main.cpp lines 246-281): the
process exit code as a function of the `do_connect` outcome and of the echo
transaction's behaviour (`none` when the connect loop's behaviour list was
exhausted).  `main` runs `test_send_recv` only when `do_connect` returned
`NSAPI_ERROR_OK`, returns 0 when the transaction result is
`NSAPI_ERROR_OK`, and returns -1 in every other case. -/
def mainExitCode (st : IfaceState) (steps : List ConnectStep) (ty : SockType)
    (sb : SocketBehavior) : Option Int :=
  match do_connect st steps with
  | none => none
  | some oc =>
    if oc.retcode = NSAPI_ERROR_OK then
      if (test_send_recv ty sb).1 = NSAPI_ERROR_OK then some 0 else some (-1)
    else
      some (-1)

/-! ### Sample concrete behaviours, used by witnesses -/

/-- Interface state that reports connected with an assigned address. -/
def stConn : IfaceState := ⟨true, some "10.0.0.1"⟩

/-- Interface state that reports disconnected with no address. -/
def stDisc : IfaceState := ⟨false, none⟩

/-- Connect behaviour: the call fails with a retryable code and the
interface stays disconnected. -/
def failStep : ConnectStep := ⟨NSAPI_ERROR_NO_CONNECTION, stDisc⟩

/-- Connect behaviour: the call succeeds and the interface comes up. -/
def okStep : ConnectStep := ⟨NSAPI_ERROR_OK, stConn⟩

/-- Socket behaviour with every operation succeeding and a 4-byte reply. -/
def sbOk : SocketBehavior := ⟨0, 0, 0, 4, 4⟩

/-- Connect behaviour: the call reports an authentication failure. -/
def authStep : ConnectStep := ⟨NSAPI_ERROR_AUTH_FAILURE, stDisc⟩

/-- Outcome of `do_connect` on `stDisc` with behaviours `[failStep, okStep]`:
one retry, then success. -/
def ocSample : ConnectOutcome :=
  ⟨NSAPI_ERROR_OK, stConn, 2, [retryMsg NSAPI_ERROR_NO_CONNECTION, connectionEstablishedMsg]⟩

/-! ### Helper lemmas about the connect loop -/

/-- Success and authentication failure are distinct `nsapi_error_t` codes. -/
theorem ok_ne_auth : NSAPI_ERROR_OK ≠ NSAPI_ERROR_AUTH_FAILURE := by decide

/-- The connect loop always yields an outcome when at least
`RETRY_COUNT + 2 - rc` behaviours (and at least one) are available. -/
theorem doConnectAux_isSome (steps : List ConnectStep) :
    ∀ (st : IfaceState) (rc : Nat),
      1 ≤ steps.length → RETRY_COUNT + 2 - rc ≤ steps.length →
      (doConnectAux st rc steps).isSome := by
  induction steps with
  | nil =>
    intro st rc h1 _
    simp at h1
  | cons s rest ih =>
    intro st rc _ h2
    cases hc : st.connected with
    | true => simp [doConnectAux, hc]
    | false =>
      by_cases ha : s.retcode = NSAPI_ERROR_AUTH_FAILURE
      · simp [doConnectAux, hc, ha]
      · by_cases hok : s.retcode = NSAPI_ERROR_OK
        · simp [doConnectAux, hc, ha, hok, ok_ne_auth]
        · by_cases hf : rc > RETRY_COUNT
          · simp [doConnectAux, hc, ha, hok, hf]
          · have hrc : rc ≤ RETRY_COUNT := by omega
            have hmod : (rc + 1) % 256 = rc + 1 := by
              unfold RETRY_COUNT at hrc
              omega
            have hlen1 : 1 ≤ rest.length := by
              unfold RETRY_COUNT at h2 hrc
              simp only [List.length_cons] at h2
              omega
            have hlen2 : RETRY_COUNT + 2 - ((rc + 1) % 256) ≤ rest.length := by
              rw [hmod]
              unfold RETRY_COUNT at h2 hrc ⊢
              simp only [List.length_cons] at h2
              omega
            have hrest := ih s.stateAfter ((rc + 1) % 256) hlen1 hlen2
            rw [Option.isSome_iff_exists] at hrest
            obtain ⟨oc, hoc⟩ := hrest
            simp [doConnectAux, hc, ha, hok, hf, hoc]

/-- The connect loop never invokes `iface.connect()` more than
`RETRY_COUNT + 2 - rc` times when entered with counter value `rc ≤
RETRY_COUNT + 1`. -/
theorem doConnectAux_attempts_bound (steps : List ConnectStep) :
    ∀ (st : IfaceState) (rc : Nat) (oc : ConnectOutcome),
      rc ≤ RETRY_COUNT + 1 → doConnectAux st rc steps = some oc →
      oc.attempts + rc ≤ RETRY_COUNT + 2 := by
  induction steps with
  | nil =>
    intro st rc oc hrc h
    cases hc : st.connected with
    | true =>
      simp [doConnectAux, hc] at h
      subst h
      unfold RETRY_COUNT at hrc ⊢
      simp
      omega
    | false => simp [doConnectAux, hc] at h
  | cons s rest ih =>
    intro st rc oc hrc h
    cases hc : st.connected with
    | true =>
      simp [doConnectAux, hc] at h
      subst h
      unfold RETRY_COUNT at hrc ⊢
      simp
      omega
    | false =>
      by_cases ha : s.retcode = NSAPI_ERROR_AUTH_FAILURE
      · simp [doConnectAux, hc, ha] at h
        subst h
        unfold RETRY_COUNT at hrc ⊢
        simp
        omega
      · by_cases hok : s.retcode = NSAPI_ERROR_OK
        · simp [doConnectAux, hc, ha, hok, ok_ne_auth] at h
          subst h
          unfold RETRY_COUNT at hrc ⊢
          simp
          omega
        · by_cases hf : rc > RETRY_COUNT
          · simp [doConnectAux, hc, ha, hok, hf] at h
            subst h
            unfold RETRY_COUNT at hrc hf ⊢
            simp
            omega
          · have hrc' : rc ≤ RETRY_COUNT := by omega
            have hmod : (rc + 1) % 256 = rc + 1 := by
              unfold RETRY_COUNT at hrc'
              omega
            simp [doConnectAux, hc, ha, hok, hf, Option.map_eq_some'] at h
            obtain ⟨oc', hoc', hfoc⟩ := h
            have hb := ih s.stateAfter ((rc + 1) % 256) oc'
              (by rw [hmod]; unfold RETRY_COUNT at hrc' ⊢; omega) hoc'
            rw [hmod] at hb
            subst hfoc
            unfold RETRY_COUNT at hb ⊢
            simp at hb ⊢
            omega

/-- When every available connect behaviour fails with a retryable code and
leaves the interface disconnected, the loop entered with counter `rc`
performs exactly `RETRY_COUNT + 2 - rc` further attempts and returns a
nonzero code. -/
theorem doConnectAux_allfail (steps : List ConnectStep) :
    ∀ (st : IfaceState) (rc : Nat),
      st.connected = false →
      (∀ s ∈ steps, s.retcode ≠ NSAPI_ERROR_OK ∧ s.retcode ≠ NSAPI_ERROR_AUTH_FAILURE ∧
        s.stateAfter.connected = false) →
      rc ≤ RETRY_COUNT + 1 → RETRY_COUNT + 2 - rc ≤ steps.length →
      ∃ oc, doConnectAux st rc steps = some oc ∧
        oc.attempts = RETRY_COUNT + 2 - rc ∧ oc.retcode ≠ NSAPI_ERROR_OK ∧
        oc.finalState.connected = false := by
  induction steps with
  | nil =>
    intro st rc _ _ hrc hlen
    unfold RETRY_COUNT at hrc hlen
    simp at hlen
    omega
  | cons s rest ih =>
    intro st rc hc hsteps hrc hlen
    have hs := hsteps s (List.mem_cons_self s rest)
    obtain ⟨hok, ha, hafter⟩ := hs
    by_cases hf : rc > RETRY_COUNT
    · refine ⟨⟨s.retcode, s.stateAfter, 1, [fatalMsg s.retcode]⟩, ?_, ?_, hok, hafter⟩
      · simp [doConnectAux, hc, ha, hok, hf]
      · unfold RETRY_COUNT at hrc hf ⊢
        simp
        omega
    · have hrc' : rc ≤ RETRY_COUNT := by omega
      have hmod : (rc + 1) % 256 = rc + 1 := by
        unfold RETRY_COUNT at hrc'
        omega
      have hlen' : RETRY_COUNT + 2 - ((rc + 1) % 256) ≤ rest.length := by
        rw [hmod]
        unfold RETRY_COUNT at hlen hrc' ⊢
        simp only [List.length_cons] at hlen
        omega
      obtain ⟨oc', hoc', hatt', hret', hfin'⟩ :=
        ih s.stateAfter ((rc + 1) % 256) hafter
          (fun t ht => hsteps t (List.mem_cons_of_mem s ht))
          (by rw [hmod]; unfold RETRY_COUNT at hrc' ⊢; omega) hlen'
      refine ⟨⟨oc'.retcode, oc'.finalState, oc'.attempts + 1, retryMsg s.retcode :: oc'.prints⟩,
        ?_, ?_, hret', hfin'⟩
      · simp [doConnectAux, hc, ha, hok, hf, hoc']
      · rw [hmod] at hatt'
        unfold RETRY_COUNT at hatt' hrc' ⊢
        simp
        omega

/-- Outcomes of the connect loop that return `NSAPI_ERROR_OK` leave the
interface connected with an assigned address, provided the interface honours
its contract: a successful `connect()` reports connected afterwards, and a
connected interface has an address. -/
theorem doConnectAux_ok_connected (steps : List ConnectStep) :
    ∀ (st : IfaceState) (rc : Nat) (oc : ConnectOutcome),
      (st.connected = true → st.ipAddress.isSome) →
      (∀ s ∈ steps, (s.retcode = NSAPI_ERROR_OK → s.stateAfter.connected = true) ∧
        (s.stateAfter.connected = true → s.stateAfter.ipAddress.isSome)) →
      doConnectAux st rc steps = some oc → oc.retcode = NSAPI_ERROR_OK →
      oc.finalState.connected = true ∧ oc.finalState.ipAddress.isSome := by
  induction steps with
  | nil =>
    intro st rc oc hstc _ h hret
    cases hc : st.connected with
    | true =>
      simp [doConnectAux, hc] at h
      subst h
      exact ⟨hc, hstc hc⟩
    | false => simp [doConnectAux, hc] at h
  | cons s rest ih =>
    intro st rc oc hstc hsteps h hret
    have hs := hsteps s (List.mem_cons_self s rest)
    cases hc : st.connected with
    | true =>
      simp [doConnectAux, hc] at h
      subst h
      exact ⟨hc, hstc hc⟩
    | false =>
      by_cases ha : s.retcode = NSAPI_ERROR_AUTH_FAILURE
      · simp [doConnectAux, hc, ha] at h
        subst h
        simp at hret
        exact absurd hret.symm ok_ne_auth
      · by_cases hok : s.retcode = NSAPI_ERROR_OK
        · simp [doConnectAux, hc, ha, hok, ok_ne_auth] at h
          subst h
          have hconn := hs.1 hok
          exact ⟨hconn, hs.2 hconn⟩
        · by_cases hf : rc > RETRY_COUNT
          · simp [doConnectAux, hc, ha, hok, hf] at h
            subst h
            simp at hret
            exact absurd hret hok
          · simp [doConnectAux, hc, ha, hok, hf, Option.map_eq_some'] at h
            obtain ⟨oc', hoc', hfoc⟩ := h
            subst hfoc
            simp at hret
            have := ih s.stateAfter ((rc + 1) % 256) oc'
              (fun hconn => hs.2 hconn)
              (fun t ht => hsteps t (List.mem_cons_of_mem s ht)) hoc' hret
            simpa using this

/-! ### Claim theorems -/

/-- C1, counterexample: with an interface that always returns a retryable
error, `do_connect` performs 5 connect attempts — not 4 as claimed — before
returning the fatal error, and the program exits with code -1. -/
theorem retry_loop_four_attempts_refuted :
    (do_connect stDisc (List.replicate 8 failStep)).map
        (fun oc => (oc.retcode, oc.attempts)) = some (NSAPI_ERROR_NO_CONNECTION, 5) ∧
    (5 : Nat) ≠ 4 ∧
    mainExitCode stDisc (List.replicate 8 failStep) SockType.tcp sbOk = some (-1) :=
  ⟨by decide, by decide, by decide⟩

/-- C1, amended: in `do_connect`, when the interface's connect operation
repeatedly returns a non-success, non-authentication error and stays
disconnected, the retry counter increments exactly once per failed attempt
and the loop terminates with a fatal error after exceeding `RETRY_COUNT`
retries: exactly `RETRY_COUNT + 2 = 5` total connect attempts (1 initial +
4 retries) occur before `do_connect` returns the fatal error, and the
program exits with code -1. -/
theorem retry_exhaustion_five_attempts (st : IfaceState) (steps : List ConnectStep)
    (hst : st.connected = false)
    (hfail : ∀ s ∈ steps, s.retcode ≠ NSAPI_ERROR_OK ∧
      s.retcode ≠ NSAPI_ERROR_AUTH_FAILURE ∧ s.stateAfter.connected = false)
    (hlen : RETRY_COUNT + 2 ≤ steps.length) :
    ∃ oc, do_connect st steps = some oc ∧ oc.attempts = RETRY_COUNT + 2 ∧
      oc.retcode ≠ NSAPI_ERROR_OK ∧
      ∀ (ty : SockType) (sb : SocketBehavior),
        mainExitCode st steps ty sb = some (-1) := by
  obtain ⟨oc, hoc, hatt, hret, _⟩ :=
    doConnectAux_allfail steps st 0 hst hfail (by omega) (by simpa using hlen)
  refine ⟨oc, hoc, by simpa using hatt, hret, ?_⟩
  intro ty sb
  unfold mainExitCode do_connect
  rw [hoc]
  simp [hret]

/-- Witness for `retry_exhaustion_five_attempts` at a concrete always-failing
behaviour of length 5. -/
theorem retry_exhaustion_five_attempts_witness :
    ∃ oc, do_connect stDisc (List.replicate 5 failStep) = some oc ∧
      oc.attempts = RETRY_COUNT + 2 ∧ oc.retcode ≠ NSAPI_ERROR_OK ∧
      ∀ (ty : SockType) (sb : SocketBehavior),
        mainExitCode stDisc (List.replicate 5 failStep) ty sb = some (-1) :=
  retry_exhaustion_five_attempts stDisc (List.replicate 5 failStep) (by decide)
    (by decide) (by decide)

/-- C6: for every value of the retry counter, a connect attempt returning
`NSAPI_ERROR_AUTH_FAILURE` makes the retry loop exit immediately with that
error code, after exactly that one connect attempt (no further attempt). -/
theorem auth_failure_exits_immediately (st : IfaceState) (rc : Nat)
    (s : ConnectStep) (rest : List ConnectStep)
    (hst : st.connected = false) (ha : s.retcode = NSAPI_ERROR_AUTH_FAILURE) :
    doConnectAux st rc (s :: rest) =
      some ⟨NSAPI_ERROR_AUTH_FAILURE, s.stateAfter, 1, [authFailureMsg]⟩ := by
  simp [doConnectAux, hst, ha]

/-- Witness for `auth_failure_exits_immediately` with the counter at 200 and
further behaviours available that are never consumed. -/
theorem auth_failure_exits_immediately_witness :
    doConnectAux stDisc 200 (authStep :: [failStep, failStep]) =
      some ⟨NSAPI_ERROR_AUTH_FAILURE, authStep.stateAfter, 1, [authFailureMsg]⟩ :=
  auth_failure_exits_immediately stDisc 200 authStep [failStep, failStep]
    (by decide) (by decide)

/-- C10: if the interface already reports connected when `do_connect` is
entered, no connect invocation occurs at all, the interface state is left
untouched, the connection-established message is printed, and
`NSAPI_ERROR_OK` is returned. -/
theorem already_connected_no_attempt (st : IfaceState) (steps : List ConnectStep)
    (hst : st.connected = true) :
    do_connect st steps = some ⟨NSAPI_ERROR_OK, st, 0, [connectionEstablishedMsg]⟩ := by
  cases steps with
  | nil => simp [do_connect, doConnectAux, hst]
  | cons s rest => simp [do_connect, doConnectAux, hst]

/-- Witness for `already_connected_no_attempt` on a connected interface with
an available (unused) failing behaviour. -/
theorem already_connected_no_attempt_witness :
    do_connect stConn [failStep] =
      some ⟨NSAPI_ERROR_OK, stConn, 0, [connectionEstablishedMsg]⟩ :=
  already_connected_no_attempt stConn [failStep] (by decide)

/-- C9: `do_connect` terminates with a bounded number of connect
invocations: whenever at least `RETRY_COUNT + 2` connect behaviours are
available, the loop returns an outcome, after at most `RETRY_COUNT + 2`
invocations of `iface.connect()`, for every behaviour of the interface. -/
theorem do_connect_bounded_attempts (st : IfaceState) (steps : List ConnectStep)
    (hlen : RETRY_COUNT + 2 ≤ steps.length) :
    ∃ oc, do_connect st steps = some oc ∧ oc.attempts ≤ RETRY_COUNT + 2 := by
  have h1 : 1 ≤ steps.length := by
    unfold RETRY_COUNT at hlen
    omega
  have h2 := doConnectAux_isSome steps st 0 h1 (by simpa using hlen)
  rw [Option.isSome_iff_exists] at h2
  obtain ⟨oc, hoc⟩ := h2
  have hb := doConnectAux_attempts_bound steps st 0 oc (by omega) hoc
  exact ⟨oc, hoc, by omega⟩

/-- Witness for `do_connect_bounded_attempts` at a length-5 behaviour. -/
theorem do_connect_bounded_attempts_witness :
    ∃ oc, do_connect stDisc (List.replicate 5 failStep) = some oc ∧
      oc.attempts ≤ RETRY_COUNT + 2 :=
  do_connect_bounded_attempts stDisc (List.replicate 5 failStep) (by decide)

/-- C3: whenever `do_connect` returns `NSAPI_ERROR_OK`, the interface
reports itself connected and has an assigned address — under the interface
contract that a successful `connect()` leaves it reporting connected and
that a connected interface has an assigned address. -/
theorem do_connect_ok_implies_connected (st : IfaceState) (steps : List ConnectStep)
    (oc : ConnectOutcome)
    (hstc : st.connected = true → st.ipAddress.isSome)
    (hcontract : ∀ s ∈ steps, (s.retcode = NSAPI_ERROR_OK → s.stateAfter.connected = true) ∧
      (s.stateAfter.connected = true → s.stateAfter.ipAddress.isSome))
    (h : do_connect st steps = some oc) (hret : oc.retcode = NSAPI_ERROR_OK) :
    oc.finalState.connected = true ∧ oc.finalState.ipAddress.isSome :=
  doConnectAux_ok_connected steps st 0 oc hstc hcontract h hret

/-- Witness for `do_connect_ok_implies_connected`: one retryable failure,
then a successful connect that brings the interface up with an address. -/
theorem do_connect_ok_implies_connected_witness :
    ocSample.finalState.connected = true ∧ ocSample.finalState.ipAddress.isSome :=
  do_connect_ok_implies_connected stDisc [failStep, okStep] ocSample (by decide)
    (by decide) (by rfl) (by decide)

/-- C5: the process exit code is 0 exactly when `do_connect` returned
`NSAPI_ERROR_OK` and the echo transaction returned 0; in every other case
`main` returns -1. -/
theorem main_exit_code_spec (st : IfaceState) (steps : List ConnectStep)
    (ty : SockType) (sb : SocketBehavior) (oc : ConnectOutcome)
    (h : do_connect st steps = some oc) :
    (mainExitCode st steps ty sb = some 0 ↔
      oc.retcode = NSAPI_ERROR_OK ∧ (test_send_recv ty sb).1 = 0) ∧
    (mainExitCode st steps ty sb = some 0 ∨ mainExitCode st steps ty sb = some (-1)) := by
  unfold mainExitCode
  rw [h]
  simp only [NSAPI_ERROR_OK]
  by_cases h1 : oc.retcode = 0
  · by_cases h2 : (test_send_recv ty sb).1 = 0
    · simp [h1, h2]
    · simp [h1, h2]
  · simp [h1]

/-- Witness for `main_exit_code_spec` with an already-connected interface
and a fully successful echo transaction. -/
theorem main_exit_code_spec_witness :
    (mainExitCode stConn [] SockType.tcp sbOk = some 0 ↔
      (⟨NSAPI_ERROR_OK, stConn, 0, [connectionEstablishedMsg]⟩ : ConnectOutcome).retcode =
          NSAPI_ERROR_OK ∧
        (test_send_recv SockType.tcp sbOk).1 = 0) ∧
    (mainExitCode stConn [] SockType.tcp sbOk = some 0 ∨
      mainExitCode stConn [] SockType.tcp sbOk = some (-1)) :=
  main_exit_code_spec stConn [] SockType.tcp sbOk
    ⟨NSAPI_ERROR_OK, stConn, 0, [connectionEstablishedMsg]⟩ (by rfl)

/-- C2: any failure of socket open, hostname resolution, TCP connect, or
send aborts the echo transaction with result -1 before any receive is
attempted, and on every such early-abort path the socket still ends closed
(these paths perform no explicit `close`; the stack socket object is
destroyed on return, which releases a still-open socket). -/
theorem echo_abort_paths (ty : SockType) (b : SocketBehavior)
    (hfail : ¬(b.openResult = NSAPI_ERROR_OK ∧ b.resolveResult = NSAPI_ERROR_OK ∧
      (ty = SockType.tcp → 0 ≤ b.connectResult) ∧ 0 ≤ b.sendResult)) :
    (test_send_recv ty b).1 = -1 ∧
    (∀ l, EchoEvent.recvData l ∉ (test_send_recv ty b).2) ∧
    socketClosed (test_send_recv ty b).2 := by
  by_cases h1 : b.openResult = NSAPI_ERROR_OK
  · by_cases h2 : b.resolveResult = NSAPI_ERROR_OK
    · cases ty with
      | udp =>
        by_cases h4 : b.sendResult < 0
        · simp [test_send_recv, h1, h2, h4, socketClosed]
        · exact absurd ⟨h1, h2, by simp, by omega⟩ hfail
      | tcp =>
        by_cases h3 : b.connectResult < 0
        · simp [test_send_recv, h1, h2, h3, socketClosed]
        · by_cases h4 : b.sendResult < 0
          · simp [test_send_recv, h1, h2, h3, h4, socketClosed]
          · exact absurd ⟨h1, h2, fun _ => by omega, by omega⟩ hfail
    · simp [test_send_recv, h1, h2, socketClosed]
  · simp [test_send_recv, h1, socketClosed]

/-- Witness for `echo_abort_paths`: hostname resolution fails with a DNS
error, so the transaction returns -1 without attempting a receive. -/
theorem echo_abort_paths_witness :
    (test_send_recv SockType.tcp ⟨0, -3009, 0, 4, 4⟩).1 = -1 ∧
    (∀ l, EchoEvent.recvData l ∉ (test_send_recv SockType.tcp ⟨0, -3009, 0, 4, 4⟩).2) ∧
    socketClosed (test_send_recv SockType.tcp ⟨0, -3009, 0, 4, 4⟩).2 :=
  echo_abort_paths SockType.tcp ⟨0, -3009, 0, 4, 4⟩ (by decide)

/-- C4: every run of the echo transaction that reaches the receive step
yields result 0 exactly when the received byte count is positive, and -1
otherwise — the raw byte count is the only success criterion. -/
theorem echo_recv_count_decides (ty : SockType) (b : SocketBehavior) (l : Nat)
    (hrecv : EchoEvent.recvData l ∈ (test_send_recv ty b).2) :
    ((test_send_recv ty b).1 = 0 ↔ 0 < b.recvResult) ∧
    ((test_send_recv ty b).1 = 0 ∨ (test_send_recv ty b).1 = -1) := by
  by_cases h1 : b.openResult = NSAPI_ERROR_OK
  · by_cases h2 : b.resolveResult = NSAPI_ERROR_OK
    · cases ty with
      | udp =>
        by_cases h4 : b.sendResult < 0
        · simp [test_send_recv, h1, h2, h4] at hrecv
        · by_cases h5 : 0 < b.recvResult
          · simp [test_send_recv, h1, h2, h4, h5]
          · simp [test_send_recv, h1, h2, h4, h5]
      | tcp =>
        by_cases h3 : b.connectResult < 0
        · simp [test_send_recv, h1, h2, h3] at hrecv
        · by_cases h4 : b.sendResult < 0
          · simp [test_send_recv, h1, h2, h3, h4] at hrecv
          · by_cases h5 : 0 < b.recvResult
            · simp [test_send_recv, h1, h2, h3, h4, h5]
            · simp [test_send_recv, h1, h2, h3, h4, h5]
    · simp [test_send_recv, h1, h2] at hrecv
  · simp [test_send_recv, h1] at hrecv

/-- Witness for `echo_recv_count_decides`: a UDP run with a 4-byte reply. -/
theorem echo_recv_count_decides_witness :
    ((test_send_recv SockType.udp sbOk).1 = 0 ↔ 0 < sbOk.recvResult) ∧
    ((test_send_recv SockType.udp sbOk).1 = 0 ∨ (test_send_recv SockType.udp sbOk).1 = -1) :=
  echo_recv_count_decides SockType.udp sbOk 4 (by decide)

/-- C7: in every echo transaction, any payload handed to the socket send
(TCP `send` or UDP `sendto`) is exactly the fixed 4-byte ASCII marker
"TEST", the resolved host is the fixed echo hostname with the port set to
7, and any receive reads into a 4-byte buffer. -/
theorem echo_wire_format (ty : SockType) (b : SocketBehavior) (p : String) (l : Nat)
    (hsend : EchoEvent.sendData p l ∈ (test_send_recv ty b).2) :
    p = "TEST" ∧ l = 4 ∧
    EchoEvent.setPort 7 ∈ (test_send_recv ty b).2 ∧
    EchoEvent.resolveHost "echo.mbedcloudtesting.com" ∈ (test_send_recv ty b).2 ∧
    (∀ l2, EchoEvent.recvData l2 ∈ (test_send_recv ty b).2 → l2 = 4) := by
  by_cases h1 : b.openResult = NSAPI_ERROR_OK
  · by_cases h2 : b.resolveResult = NSAPI_ERROR_OK
    · cases ty with
      | udp =>
        by_cases h4 : b.sendResult < 0
        · simp [test_send_recv, h1, h2, h4, echo_string, sizeof_echo_string,
            sizeof_recv_buf, host_name, port] at hsend ⊢
          exact hsend
        · simp [test_send_recv, h1, h2, h4, echo_string, sizeof_echo_string,
            sizeof_recv_buf, host_name, port] at hsend ⊢
          exact hsend
      | tcp =>
        by_cases h3 : b.connectResult < 0
        · simp [test_send_recv, h1, h2, h3] at hsend
        · by_cases h4 : b.sendResult < 0
          · simp [test_send_recv, h1, h2, h3, h4, echo_string, sizeof_echo_string,
              sizeof_recv_buf, host_name, port] at hsend ⊢
            exact hsend
          · simp [test_send_recv, h1, h2, h3, h4, echo_string, sizeof_echo_string,
              sizeof_recv_buf, host_name, port] at hsend ⊢
            exact hsend
    · simp [test_send_recv, h1, h2] at hsend
  · simp [test_send_recv, h1] at hsend

/-- Witness for `echo_wire_format` on a fully successful TCP run. -/
theorem echo_wire_format_witness :
    ("TEST" : String) = "TEST" ∧ (4 : Nat) = 4 ∧
    EchoEvent.setPort 7 ∈ (test_send_recv SockType.tcp sbOk).2 ∧
    EchoEvent.resolveHost "echo.mbedcloudtesting.com" ∈ (test_send_recv SockType.tcp sbOk).2 ∧
    (∀ l2, EchoEvent.recvData l2 ∈ (test_send_recv SockType.tcp sbOk).2 → l2 = 4) :=
  echo_wire_format SockType.tcp sbOk "TEST" 4 (by decide)

/-- C8: each cycle of `dot_event` sleeps the fixed 4 seconds and then emits
exactly one "." marker when the interface is not yet connected; the loop
terminates at the first cycle that observes the interface connected,
emitting no marker in that cycle and none afterwards, whatever the
interface reports later. -/
theorem dot_event_marks_each_cycle (pre post : List Bool) :
    (∀ b ∈ pre, b = false) →
    dot_event (pre ++ true :: post) =
      some (List.replicate pre.length ".", dot_wait_seconds * (pre.length + 1)) := by
  induction pre with
  | nil =>
    intro _
    simp [dot_event]
  | cons b rest ih =>
    intro hpre
    have hb : b = false := hpre b (List.mem_cons_self b rest)
    have hrest := ih (fun x hx => hpre x (List.mem_cons_of_mem b hx))
    subst hb
    simp [dot_event, hrest, List.replicate_succ]
    ring

/-- Witness for `dot_event_marks_each_cycle`: two disconnected polls, then a
connected one; a later disconnected observation is never consumed. -/
theorem dot_event_marks_each_cycle_witness :
    dot_event ([false, false] ++ true :: [false]) =
      some (List.replicate [false, false].length ".",
        dot_wait_seconds * ([false, false].length + 1)) :=
  dot_event_marks_each_cycle [false, false] [false] (by decide)

end CellularExample
